import Mathlib

/-!
Shallow embedding of the alert-delivery subsystem of the
geo-info-data-visualization project (FireWatch), together with proofs of the
spec's claims about it.

Modelling conventions:

* Time is `Nat`, counted in hours since an arbitrary epoch.  The UTC calendar
  day used by `datetime.utcnow().strftime("%Y-%m-%d")` is modelled as
  `t / 24`, rendered to a string, which identifies days exactly as the date
  string does.
* Risk scores and thresholds are `Int` (the Python code uses floats, but every
  comparison in the claims involves integral values; float rounding plays no
  role in any claim).
* The database is explicit state: the three tables are lists of rows, and each
  operation of `DeliveryTracker` / `EmailSender` is a pure function from the
  table state (plus the current time) to a result and a new state.
* A raised exception is modelled as `Except.error`; in particular the
  unique-constraint `IntegrityError` that `session.commit()` raises on a
  duplicate `(user_id, event_signature)` insert is `TrackerError.uniqueViolation`.
* Python truthiness on `or` chains is modelled explicitly: `None` and the
  empty string and the number 0 are falsy (`pyOrStr`, `pyOrNum`).
* The SHA-256 hash in `_event_signature` is modelled by its (injective)
  pre-image string `"{area_id}:{bucket}:{date_str}"`; every claim depends only
  on equality or inequality of signatures, which the hash preserves by intent.
* `random`-based jitter and `time.sleep` affect timing only, never the value
  returned by `send_with_retry`, and are not modelled; the number of
  invocations of the send function is made an explicit second component of
  the result so that counting claims can be stated.
-/

namespace FireWatch

set_option autoImplicit false

/-- Model of the `SendResult` dataclass from `provider.py`. -/
structure SendResult where
  success : Bool
  provider_message_id : Option String := none
  error_message : Option String := none
deriving DecidableEq, Repr

/-- Model of the `EmailMessage` dataclass from `provider.py` (fields used by the sender);
the Python field `to` is spelled `to_addr` because `to` is reserved in Lean. -/
structure EmailMessage where
  to_addr : String
  subject : String
  html_body : String
  text_body : String
deriving DecidableEq, Repr

/-- Row of the `alert_activity` table (`models.py`, class `AlertActivity`).
`created_at` carries the column default `datetime.utcnow`; `retry_count`
carries the column default `0`. -/
structure AlertActivity where
  user_id : Nat
  area_id : Option Nat
  event_signature : String
  alert_type : String
  risk_score : Option Int
  provider_message_id : Option String
  error_message : Option String
  retry_count : Nat
  delivered_at : Option Nat
  created_at : Nat
deriving DecidableEq, Repr

/-- Row of the `user_alert_preferences` table (`models.py`,
class `UserAlertPreference`).  `risk_threshold` is a nullable numeric column,
hence `Option Int`. -/
structure UserAlertPreference where
  user_id : Nat
  frequency : String
  risk_threshold : Option Int
  is_paused : Bool
  email : Option String
deriving DecidableEq, Repr

/-- Row of the `user_monitored_areas` table (`models.py`,
class `UserMonitoredArea`). -/
structure UserMonitoredArea where
  id : Nat
  user_id : Nat
  area_name : String
deriving DecidableEq, Repr

/-- Python `a or b` on an optional string: `None` and `""` are falsy. -/
def pyOrStr (a : Option String) (b : String) : String :=
  match a with
  | none => b
  | some s => if s = "" then b else s

/-- Python `a or b` on an optional numeric: `None` and `0` are falsy. -/
def pyOrNum (a : Option Int) (b : Int) : Int :=
  match a with
  | none => b
  | some t => if t = 0 then b else t

/-- The `"%Y-%m-%d"` date string of an hour timestamp: the calendar day. -/
def dateStr (t : Nat) : String := toString (t / 24)

/-- Model of `_event_signature` from `sender.py`: dedup signature from area, risk
bucket and date.  The code hashes `"{area_id}:{bucket}:{date_str}"` with
SHA-256 and truncates; we keep the pre-image, which the hash identifies. -/
def event_signature (area_id : Nat) (risk_score : Int) (date_str : String) : String :=
  let bucket := if risk_score ≥ 70 then "high" else if risk_score ≥ 50 then "med" else "low"
  toString area_id ++ ":" ++ bucket ++ ":" ++ date_str

/-- Errors a tracker operation can raise (re-raised `IntegrityError` from the
`uq_user_event_signature` unique constraint). -/
inductive TrackerError where
  | uniqueViolation
deriving DecidableEq, Repr

/-- The ledger: the `alert_activity` table contents, in insertion order. -/
abbrev Ledger := List AlertActivity

namespace DeliveryTracker

/-- Model of `DeliveryTracker.is_duplicate` from `tracker.py`: true iff some
`alert_activity` row with this `(user_id, event_signature)` has
`created_at >= utcnow() - dedup_window_hours`. -/
def is_duplicate (dedup_window_hours : Nat) (ledger : Ledger) (now : Nat)
    (user_id : Nat) (sig : String) : Bool :=
  ledger.any (fun a =>
    a.user_id = user_id ∧ a.event_signature = sig ∧ a.created_at ≥ now - dedup_window_hours)

/-- Model of `DeliveryTracker.record_send` from `tracker.py`: insert a success row.
The `uq_user_event_signature` unique constraint makes `session.commit()`
raise on a duplicate `(user_id, event_signature)`; the code re-raises, which
we model as `Except.error`.  On success the new row has
`provider_message_id` set, `delivered_at = utcnow()` (as the code writes it),
`retry_count` at its column default 0 and `created_at = utcnow()`. -/
def record_send (ledger : Ledger) (now : Nat) (user_id : Nat) (sig : String)
    (provider_message_id : String) (area_id : Option Nat) (alert_type : String)
    (risk_score : Option Int) : Except TrackerError (Ledger × AlertActivity) :=
  if ledger.any (fun a => a.user_id = user_id ∧ a.event_signature = sig) then
    .error .uniqueViolation
  else
    let activity : AlertActivity :=
      { user_id := user_id
        area_id := area_id
        event_signature := sig
        alert_type := alert_type
        risk_score := risk_score
        provider_message_id := some provider_message_id
        error_message := none
        retry_count := 0
        delivered_at := some now
        created_at := now }
    .ok (ledger ++ [activity], activity)

/-- Model of `DeliveryTracker.record_failure` from `tracker.py`: insert a failure row
(no provider id, `error_message` and `retry_count` set).  Subject to the same
unique constraint as `record_send`. -/
def record_failure (ledger : Ledger) (now : Nat) (user_id : Nat) (sig : String)
    (error_message : String) (retry_count : Nat) (area_id : Option Nat)
    (alert_type : String) (risk_score : Option Int) :
    Except TrackerError (Ledger × AlertActivity) :=
  if ledger.any (fun a => a.user_id = user_id ∧ a.event_signature = sig) then
    .error .uniqueViolation
  else
    let activity : AlertActivity :=
      { user_id := user_id
        area_id := area_id
        event_signature := sig
        alert_type := alert_type
        risk_score := risk_score
        provider_message_id := none
        error_message := some error_message
        retry_count := retry_count
        delivered_at := none
        created_at := now }
    .ok (ledger ++ [activity], activity)

/-- Update the first row satisfying `p` with `f`; used to model
`session.query(...).filter(...).first()` followed by field assignment. -/
def updateFirst (p : AlertActivity → Bool) (f : AlertActivity → AlertActivity) :
    Ledger → Ledger
  | [] => []
  | a :: rest => if p a then f a :: rest else a :: updateFirst p f rest

/-- Model of `DeliveryTracker.mark_delivered` from `tracker.py`: on the first row whose
`provider_message_id` matches, set `delivered_at = utcnow()` and clear
`error_message`, returning `true`; `false` and no change when none matches. -/
def mark_delivered (ledger : Ledger) (now : Nat) (provider_message_id : String) :
    Bool × Ledger :=
  if ledger.any (fun a => a.provider_message_id = some provider_message_id) then
    (true, updateFirst (fun a => a.provider_message_id = some provider_message_id)
      (fun a => { a with delivered_at := some now, error_message := none }) ledger)
  else
    (false, ledger)

/-- Model of `DeliveryTracker.mark_failed` from `tracker.py`: on the first row whose
`provider_message_id` matches, set `error_message` and increment
`retry_count` (`(activity.retry_count or 0) + 1`), returning `true`;
`false` and no change when none matches. -/
def mark_failed (ledger : Ledger) (error_message : String)
    (provider_message_id : String) : Bool × Ledger :=
  if ledger.any (fun a => a.provider_message_id = some provider_message_id) then
    (true, updateFirst (fun a => a.provider_message_id = some provider_message_id)
      (fun a => { a with error_message := some error_message,
                         retry_count := a.retry_count + 1 }) ledger)
  else
    (false, ledger)

/-- Model of `DeliveryTracker.get_failed_alerts` from `tracker.py`: rows with no
`provider_message_id`, a non-null `error_message` and
`retry_count < max_retry_count`. -/
def get_failed_alerts (max_retry_count : Nat) (ledger : Ledger) : List AlertActivity :=
  ledger.filter (fun a =>
    a.provider_message_id = none ∧ a.error_message ≠ none ∧ a.retry_count < max_retry_count)

end DeliveryTracker

namespace RetryHandler

/-- Loop body of `RetryHandler.send_with_retry` from `retry.py`.
`remaining` is the number of retries still allowed (`max_retries - attempt`),
`attempt` the 0-based index of the invocation about to be made.  The send
function is indexed by invocation number, so that stateful Python send
functions (fail twice then succeed, ...) are expressible.  The second
component of the result counts the invocations actually made. -/
def sendAttempts (send_fn : Nat → SendResult) : Nat → Nat → SendResult × Nat
  | remaining, attempt =>
    let r := send_fn attempt
    if r.success then (r, attempt + 1)
    else
      match remaining with
      | 0 => (r, attempt + 1)
      | rem + 1 => sendAttempts send_fn rem (attempt + 1)

/-- Model of `RetryHandler.send_with_retry` from `retry.py`: up to `max_retries + 1`
invocations of `send_fn`, stopping early on the first success, returning the
last result (paired here with the invocation count).  The backoff sleep
between attempts affects timing only and is not modelled. -/
def send_with_retry (max_retries : Nat) (send_fn : Nat → SendResult) :
    SendResult × Nat :=
  sendAttempts send_fn max_retries 0

end RetryHandler

/-- Model of `EmailConfig` from `config.py`: the fields the sender consumes.
`__init__.py` wires `DeliveryTracker` with `dedup_window_hours =
config.alert_dedup_window_hours` and `RetryHandler` with `max_retries =
config.max_retries`, so the sender reads both out of one config here. -/
structure EmailConfig where
  max_retries : Nat
  alert_dedup_window_hours : Nat
deriving DecidableEq, Repr

/-- Database state visible through the injected `session_factory`: the three
alert tables of `models.py`. -/
structure DB where
  prefs : List UserAlertPreference
  areas : List UserMonitoredArea
  ledger : Ledger
deriving DecidableEq, Repr

/-- Model of the `EmailSender` class from `sender.py`.  Provider, renderer and user-email lookup
are the injected collaborators; the renderer is pure by design and the
provider is modelled as a pure function of the message. -/
structure EmailSender where
  cfg : EmailConfig
  provider : EmailMessage → SendResult
  render_immediate_alert : String → Int → Option (List String) → String × String
  get_user_email : Nat → String

/-- The `SendResult` returned when the preference is absent, paused, or not on
an instant/immediate frequency (`sender.py` line 69). -/
def notSubscribedResult : SendResult :=
  { success := false, error_message := some "User not subscribed to immediate alerts" }

/-- The `SendResult` returned when the score is below the effective threshold
(`sender.py` line 72). -/
def belowThresholdResult : SendResult :=
  { success := false, error_message := some "Risk below threshold" }

/-- The `SendResult` returned on a dedup hit (`sender.py` line 79). -/
def duplicateResult : SendResult :=
  { success := false, error_message := some "Duplicate within dedup window" }

/-- Model of `EmailSender.send_immediate_alert` from `sender.py`.  The preference query
filters `user_id == user_id, is_paused == False` and takes the first row; the
effective threshold is `pref.risk_threshold or risk_threshold` (Python
truthiness: a stored NULL or 0 falls back to the argument, default 70 at every
call site); the dedup signature uses the current UTC date; a raised
unique-constraint error from `record_send` / `record_failure` propagates. -/
def EmailSender.send_immediate_alert (es : EmailSender) (db : DB) (now : Nat)
    (user_id : Nat) (area_id : Nat) (area_name : String) (risk_score : Int)
    (contributing_factors : Option (List String)) (user_email : Option String)
    (risk_threshold : Int) : Except TrackerError (SendResult × DB) :=
  match db.prefs.find? (fun p => p.user_id == user_id && !p.is_paused) with
  | none => .ok (notSubscribedResult, db)
  | some pref =>
    if pref.frequency ≠ "instant" ∧ pref.frequency ≠ "immediate" then
      .ok (notSubscribedResult, db)
    else if risk_score < pyOrNum pref.risk_threshold risk_threshold then
      .ok (belowThresholdResult, db)
    else
      let email_addr := pyOrStr user_email (pyOrStr pref.email (es.get_user_email user_id))
      let sig := event_signature area_id risk_score (dateStr now)
      if DeliveryTracker.is_duplicate es.cfg.alert_dedup_window_hours db.ledger now user_id sig then
        .ok (duplicateResult, db)
      else
        let rendered := es.render_immediate_alert area_name risk_score contributing_factors
        let msg : EmailMessage :=
          { to_addr := email_addr
            subject := "FireWatch Alert: " ++ area_name ++ " - " ++ toString risk_score ++ "% Risk"
            html_body := rendered.1
            text_body := rendered.2 }
        let result := (RetryHandler.send_with_retry es.cfg.max_retries (fun _ => es.provider msg)).1
        if result.success then
          match DeliveryTracker.record_send db.ledger now user_id sig
              (pyOrStr result.provider_message_id "") (some area_id) "immediate"
              (some risk_score) with
          | .ok (ledger2, _) => .ok (result, { db with ledger := ledger2 })
          | .error e => .error e
        else
          match DeliveryTracker.record_failure db.ledger now user_id sig
              (pyOrStr result.error_message "Unknown") es.cfg.max_retries (some area_id)
              "immediate" (some risk_score) with
          | .ok (ledger2, _) => .ok (result, { db with ledger := ledger2 })
          | .error e => .error e

/-- Inbound delivery-status webhook payload as read by `email_webhook`
(`routes/alerts.py`): the event type, `data.email.id` and
`data.error.message`, each possibly absent. -/
structure WebhookPayload where
  event_type : Option String
  email_id : Option String
  error_msg : Option String
deriving DecidableEq, Repr

/-- Model of `email_webhook` from `routes/alerts.py`: 400 when the email id is absent
or empty (`if not email_id`); `email.delivered` routes to `mark_delivered`;
`email.delivery_delayed` / `email.bounced` / `email.complained` route to
`mark_failed` with `data.error.message` defaulting to the event type; any
other type leaves the ledger untouched.  Result: HTTP status and new ledger. -/
def email_webhook (ledger : Ledger) (now : Nat) (payload : WebhookPayload) :
    Nat × Ledger :=
  match payload.email_id with
  | none => (400, ledger)
  | some eid =>
    if eid = "" then (400, ledger)
    else
      match payload.event_type with
      | some et =>
        if et = "email.delivered" then
          (200, (DeliveryTracker.mark_delivered ledger now eid).2)
        else if et = "email.delivery_delayed" ∨ et = "email.bounced" ∨ et = "email.complained" then
          (200, (DeliveryTracker.mark_failed ledger (payload.error_msg.getD et) eid).2)
        else (200, ledger)
      | none => (200, ledger)

/-- Modelled from the spec (section 4.1): the duplicate predicate in the
spec's words — an `AlertActivity` with this `(user_id, signature)` exists
whose `created_at` lies within the dedup window measured backward from now,
i.e. its age `now - created_at` does not exceed the window.  Used to compare
`DeliveryTracker.is_duplicate` against the contract. -/
def specIsDuplicate (dedup_window_hours : Nat) (ledger : Ledger) (now : Nat)
    (user_id : Nat) (sig : String) : Prop :=
  ∃ a ∈ ledger, a.user_id = user_id ∧ a.event_signature = sig ∧
    now ≤ a.created_at + dedup_window_hours

/-- Risk event dict consumed by `process_risk_alerts`
(`{area_id?, area_name, risk_score, contributing_factors?}`). -/
structure RiskEvent where
  area_id : Option Nat
  area_name : String
  risk_score : Int
  contributing_factors : Option (List String)
deriving DecidableEq, Repr

/-- Area matching of `process_risk_alerts` (`sender.py` lines 135-145): rows
whose `area_name` equals the event's, falling back to a lookup by `id` when
the name matches nothing and the event carries a truthy `area_id`. -/
def matchAreas (areas : List UserMonitoredArea) (ev : RiskEvent) : List UserMonitoredArea :=
  let byName := areas.filter (fun a => a.area_name == ev.area_name)
  if byName.isEmpty then
    match ev.area_id with
    | some i => if i == 0 then [] else areas.filter (fun a => a.id == i)
    | none => []
  else byName

/-- Inner loop of `process_risk_alerts` over the matched `UserMonitoredArea`
rows of one event, threading the batch-level `seen` set of
`(user_id, area.id)` pairs and the database. -/
def EmailSender.processAreaUsers (es : EmailSender) (ev : RiskEvent) (now : Nat) :
    List UserMonitoredArea → DB → List (Nat × Nat) →
    Except TrackerError (List SendResult × DB × List (Nat × Nat))
  | [], db, seen => .ok ([], db, seen)
  | ua :: rest, db, seen =>
    if (ua.user_id, ua.id) ∈ seen then es.processAreaUsers ev now rest db seen
    else
      match es.send_immediate_alert db now ua.user_id ua.id
          (pyOrStr (some ua.area_name) ev.area_name) ev.risk_score
          ev.contributing_factors none 70 with
      | .error e => .error e
      | .ok (r, db2) =>
        match es.processAreaUsers ev now rest db2 ((ua.user_id, ua.id) :: seen) with
        | .error e => .error e
        | .ok (rs, db3, seen3) => .ok (r :: rs, db3, seen3)

/-- Outer loop of `process_risk_alerts` over the event list. -/
def EmailSender.processEvents (es : EmailSender) (now : Nat) :
    List RiskEvent → DB → List (Nat × Nat) →
    Except TrackerError (List SendResult × DB × List (Nat × Nat))
  | [], db, seen => .ok ([], db, seen)
  | ev :: rest, db, seen =>
    match es.processAreaUsers ev now (matchAreas db.areas ev) db seen with
    | .error e => .error e
    | .ok (rs1, db2, seen2) =>
      match es.processEvents now rest db2 seen2 with
      | .error e => .error e
      | .ok (rs2, db3, seen3) => .ok (rs1 ++ rs2, db3, seen3)

/-- Model of `EmailSender.process_risk_alerts` from `sender.py`: find the users
monitoring each affected area, de-duplicate `(user_id, area_id)` pairs within
the batch via `seen`, and call `send_immediate_alert` per pair, collecting the
results in order. -/
def EmailSender.process_risk_alerts (es : EmailSender) (db : DB) (now : Nat)
    (risk_data_list : List RiskEvent) : Except TrackerError (List SendResult × DB) :=
  match es.processEvents now risk_data_list db [] with
  | .error e => .error e
  | .ok (rs, db2, _) => .ok (rs, db2)

end FireWatch

namespace Notifications

set_option autoImplicit false

/-- Row of `notification_preferences` (`backend/models.py`,
class `NotificationPreference`), as read by `routes/notifications.py`. -/
structure NotificationPreference where
  user_id : Nat
  opted_in : Bool
  frequency : String
  risk_threshold : Int
  paused_until : Option Nat
  blackout_start : Option Nat
  blackout_end : Option Nat
  last_sent_at : Option Nat
  unsubscribed_at : Option Nat
deriving DecidableEq, Repr

/-- Model of `should_send_alert` from `routes/notifications.py`, with the current time
passed explicitly (the Python default `now=None` substitutes the wall clock;
datetimes are hours here, so `timedelta(days=1)` is 24 and
`timedelta(days=7)` is 168). -/
def should_send_alert (pref : NotificationPreference) (risk_level : Int)
    (now : Nat) : Bool :=
  if !pref.opted_in then false
  else if (match pref.paused_until with
           | some pu => decide (now < pu)
           | none => false) then false
  else if (match pref.blackout_start, pref.blackout_end with
           | some bs, some be => decide (bs ≤ now ∧ now ≤ be)
           | _, _ => false) then false
  else if risk_level < pref.risk_threshold then false
  else if pref.frequency = "instant" then true
  else
    match pref.last_sent_at with
    | none => true
    | some ls =>
      if pref.frequency = "daily" then decide (now - ls ≥ 24)
      else if pref.frequency = "weekly" then decide (now - ls ≥ 168)
      else false

/-- A preference-update request body, with the datetime fields already parsed
(`_parse_datetime` failures concern ISO-8601 string format only and are out of
scope here).  The outer `Option` is presence of the key in the JSON body; for
the datetime fields the inner `Option` is an explicit null. -/
structure PrefUpdateData where
  frequency : Option String
  risk_threshold : Option Int
  paused_until : Option (Option Nat)
  blackout_start : Option (Option Nat)
  blackout_end : Option (Option Nat)
deriving DecidableEq, Repr

/-- The final guard of `_apply_preference_updates`
(`routes/notifications.py` lines 128-129): reject the updated preference when
both blackout bounds are set and `blackout_start > blackout_end`. -/
def blackoutCheck (pref : NotificationPreference) : Except String NotificationPreference :=
  match pref.blackout_start, pref.blackout_end with
  | some bs, some be =>
    if bs > be then .error "blackout_start must be before blackout_end"
    else .ok pref
  | _, _ => .ok pref

/-- Model of `_apply_preference_updates` from `routes/notifications.py`: validate and
apply each present field in order, returning the first validation error, then
reject the result when both blackout bounds are set and inverted. -/
def apply_preference_updates (pref : NotificationPreference) (data : PrefUpdateData) :
    Except String NotificationPreference :=
  match
    ((match data.frequency with
     | some f =>
       if f ≠ "instant" ∧ f ≠ "daily" ∧ f ≠ "weekly" then
         .error "frequency must be instant, daily, or weekly"
       else .ok { pref with frequency := f }
     | none => .ok pref) : Except String NotificationPreference) with
  | .error e => .error e
  | .ok pref1 =>
    match
      ((match data.risk_threshold with
       | some t =>
         if t < 0 ∨ t > 100 then
           .error "risk_threshold must be between 0 and 100"
         else .ok { pref1 with risk_threshold := t }
       | none => .ok pref1) : Except String NotificationPreference) with
    | .error e => .error e
    | .ok pref2 =>
      let pref3 := match data.paused_until with
        | some v => { pref2 with paused_until := v }
        | none => pref2
      let pref4 := match data.blackout_start with
        | some v => { pref3 with blackout_start := v }
        | none => pref3
      let pref5 := match data.blackout_end with
        | some v => { pref4 with blackout_end := v }
        | none => pref4
      blackoutCheck pref5

/-- Modelled from the spec: the intended effect of a valid preference update —
each listed field present in the request replaces the stored value.  Used to
compare the outcome of `apply_preference_updates` against the contract. -/
def appliedUpdates (pref : NotificationPreference) (data : PrefUpdateData) :
    NotificationPreference :=
  { pref with
    frequency := data.frequency.getD pref.frequency
    risk_threshold := data.risk_threshold.getD pref.risk_threshold
    paused_until := match data.paused_until with
      | some v => v
      | none => pref.paused_until
    blackout_start := match data.blackout_start with
      | some v => v
      | none => pref.blackout_start
    blackout_end := match data.blackout_end with
      | some v => v
      | none => pref.blackout_end }

/-- The `PUT /me/notifications` handler (`update_my_notifications`): apply the
updates, commit only when validation passed; on a validation error the stored
row is returned unchanged (no commit) together with the error message. -/
def updateEndpoint (stored : NotificationPreference) (data : PrefUpdateData) :
    Option String × NotificationPreference :=
  match apply_preference_updates stored data with
  | .error e => (some e, stored)
  | .ok p => (none, p)

end Notifications

/-!
## Theorems

Helper lemmas shared between the claim theorems come first, then one theorem
per claim.
-/

open FireWatch

/-- Invocation-count bound for the retry loop: starting at `attempt` with
`remaining` retries still allowed, at most `remaining + 1` further
invocations happen. -/
theorem sendAttempts_count_le (f : Nat → SendResult) :
    ∀ (remaining attempt : Nat),
      (RetryHandler.sendAttempts f remaining attempt).2 ≤ attempt + remaining + 1 := by
  intro remaining
  induction remaining with
  | zero =>
    intro a
    by_cases h : (f a).success <;> simp [RetryHandler.sendAttempts, h]
  | succ rem ih =>
    intro a
    by_cases h : (f a).success
    · simp [RetryHandler.sendAttempts, h]
    · have := ih (a + 1)
      simp only [RetryHandler.sendAttempts, h]
      simp only [Bool.false_eq_true, if_false]
      omega

/-- C4: `send_with_retry` invokes the send function at most `max_retries + 1`
times and returns the last result; a send function failing on its first two
invocations and succeeding on the third, with `max_retries = 3`, yields that
success after exactly 3 invocations; a send function that always fails, with
`max_retries = 2`, yields its third (last) failure result after exactly
3 invocations. -/
theorem send_with_retry_attempt_counts :
    (∀ (f : Nat → SendResult) (m : Nat),
        (RetryHandler.send_with_retry m f).2 ≤ m + 1) ∧
    (∀ f : Nat → SendResult,
        (f 0).success = false → (f 1).success = false → (f 2).success = true →
        RetryHandler.send_with_retry 3 f = (f 2, 3)) ∧
    (∀ f : Nat → SendResult, (∀ i, (f i).success = false) →
        RetryHandler.send_with_retry 2 f = (f 2, 3) ∧ (f 2).success = false) := by
  refine ⟨fun f m => ?_, fun f h0 h1 h2 => ?_, fun f h => ?_⟩
  · have := sendAttempts_count_le f m 0
    simpa [RetryHandler.send_with_retry] using this
  · simp [RetryHandler.send_with_retry, RetryHandler.sendAttempts, h0, h1, h2]
  · exact ⟨by simp [RetryHandler.send_with_retry, RetryHandler.sendAttempts, h 0, h 1, h 2], h 2⟩

/-- Witness for `send_with_retry_attempt_counts`: the concrete send function
that succeeds from its third invocation on, and the one that never succeeds. -/
theorem send_with_retry_attempt_counts_witness :
    RetryHandler.send_with_retry 3 (fun i => { success := decide (2 ≤ i) }) =
      ({ success := true }, 3) ∧
    RetryHandler.send_with_retry 2 (fun _ => { success := false }) =
      ({ success := false }, 3) := by
  constructor
  · have := send_with_retry_attempt_counts.2.1 (fun i => { success := decide (2 ≤ i) })
      (by decide) (by decide) (by decide)
    simpa using this
  · have := (send_with_retry_attempt_counts.2.2 (fun _ => { success := false })
      (fun _ => rfl)).1
    simpa using this

/-- Helper: `updateFirst` rewrites exactly the first row matched by `p`. -/
theorem updateFirst_eq_of (p : AlertActivity → Bool) (f : AlertActivity → AlertActivity) :
    ∀ (pre : Ledger) (a : AlertActivity) (post : Ledger),
      (∀ b ∈ pre, p b = false) → p a = true →
      DeliveryTracker.updateFirst p f (pre ++ a :: post) = pre ++ f a :: post := by
  intro pre
  induction pre with
  | nil =>
    intro a post _ ha
    simp [DeliveryTracker.updateFirst, ha]
  | cons b rest ih =>
    intro a post hpre ha
    have hb : p b = false := hpre b (by simp)
    simp [DeliveryTracker.updateFirst, hb,
      ih a post (fun c hc => hpre c (by simp [hc])) ha]

/-- C8: a failure webhook for an existing `provider_message_id` reaches
`mark_failed`, which increments `retry_count` by exactly one, sets
`error_message` to the given message, leaves every other field and row
untouched, and returns true; with no matching row `mark_failed` returns
false and changes nothing; `email.bounced` payloads route to `mark_failed`
with the payload's error message. -/
theorem mark_failed_webhook :
    (∀ (ledger : Ledger) (msg pmid : String),
       (∀ b ∈ ledger, b.provider_message_id ≠ some pmid) →
       DeliveryTracker.mark_failed ledger msg pmid = (false, ledger)) ∧
    (∀ (pre post : Ledger) (a : AlertActivity) (msg pmid : String),
       (∀ b ∈ pre, b.provider_message_id ≠ some pmid) →
       a.provider_message_id = some pmid →
       DeliveryTracker.mark_failed (pre ++ a :: post) msg pmid =
         (true, pre ++ { a with error_message := some msg,
                                retry_count := a.retry_count + 1 } :: post)) ∧
    (∀ (ledger : Ledger) (now : Nat) (msg pmid : String), pmid ≠ "" →
       email_webhook ledger now
         { event_type := some "email.bounced", email_id := some pmid,
           error_msg := some msg } =
         (200, (DeliveryTracker.mark_failed ledger msg pmid).2)) := by
  refine ⟨fun ledger msg pmid h => ?_, fun pre post a msg pmid hpre ha => ?_,
    fun ledger now msg pmid h => ?_⟩
  · have hany : ledger.any (fun a => a.provider_message_id = some pmid) = false := by
      simp only [List.any_eq_false, decide_eq_true_eq]
      exact h
    simp [DeliveryTracker.mark_failed, hany]
  · have hany : (pre ++ a :: post).any
        (fun b => b.provider_message_id = some pmid) = true := by
      simp only [List.any_eq_true, decide_eq_true_eq]
      exact ⟨a, by simp, ha⟩
    have hupd := updateFirst_eq_of
      (fun b => decide (b.provider_message_id = some pmid))
      (fun b => { b with error_message := some msg, retry_count := b.retry_count + 1 })
      pre a post (fun c hc => decide_eq_false (hpre c hc)) (decide_eq_true ha)
    simp [DeliveryTracker.mark_failed, hany, hupd]
  · simp [email_webhook, h]

/-- Witness for `mark_failed_webhook`: the spec's concrete bounce scenario on
a one-row ledger, and the no-match case on the empty ledger. -/
theorem mark_failed_webhook_witness :
    email_webhook
      [{ user_id := 1, area_id := some 1, event_signature := "1:high:0",
         alert_type := "immediate", risk_score := some 75,
         provider_message_id := some "msg_1", error_message := none,
         retry_count := 0, delivered_at := some 5, created_at := 5 }] 10
      { event_type := some "email.bounced", email_id := some "msg_1",
        error_msg := some "mailbox full" } =
      (200,
       [{ user_id := 1, area_id := some 1, event_signature := "1:high:0",
          alert_type := "immediate", risk_score := some 75,
          provider_message_id := some "msg_1",
          error_message := some "mailbox full",
          retry_count := 1, delivered_at := some 5, created_at := 5 }]) ∧
    DeliveryTracker.mark_failed [] "mailbox full" "msg_404" = (false, []) := by
  constructor
  · rw [mark_failed_webhook.2.2 _ 10 "mailbox full" "msg_1" (by decide)]
    rfl
  · exact mark_failed_webhook.1 [] "mailbox full" "msg_404" (by simp)

/-- C6 counterexample: `record_send` does not leave `delivered_at` null — on
the very insert that records a successful send (no webhook involved) the row
already carries `delivered_at = utcnow()`; here a send recorded at hour 5
yields `delivered_at = some 5`. -/
theorem record_send_sets_delivered_at :
    DeliveryTracker.record_send [] 5 1 "1:high:0" "m1" (some 1) "immediate" (some 75) =
      .ok ([{ user_id := 1, area_id := some 1, event_signature := "1:high:0",
              alert_type := "immediate", risk_score := some 75,
              provider_message_id := some "m1", error_message := none,
              retry_count := 0, delivered_at := some 5, created_at := 5 }],
           { user_id := 1, area_id := some 1, event_signature := "1:high:0",
             alert_type := "immediate", risk_score := some 75,
             provider_message_id := some "m1", error_message := none,
             retry_count := 0, delivered_at := some 5, created_at := 5 }) ∧
    (some 5 : Option Nat) ≠ none := ⟨rfl, by simp⟩

/-- C6 amended: `delivered_at` is null on failure records until a webhook
confirmation sets it, but `record_send` stamps `delivered_at` with the
send-record time itself (not null), and `mark_delivered` stamps the matched
row with the confirmation time and clears its error. -/
theorem delivered_at_lifecycle :
    (∀ (ledger : Ledger) (now uid : Nat) (sig msg : String) (rc : Nat)
       (aid : Option Nat) (atype : String) (rs : Option Int)
       (l2 : Ledger) (a : AlertActivity),
       DeliveryTracker.record_failure ledger now uid sig msg rc aid atype rs = .ok (l2, a) →
       a.delivered_at = none) ∧
    (∀ (ledger : Ledger) (now uid : Nat) (sig pmid : String)
       (aid : Option Nat) (atype : String) (rs : Option Int)
       (l2 : Ledger) (a : AlertActivity),
       DeliveryTracker.record_send ledger now uid sig pmid aid atype rs = .ok (l2, a) →
       a.delivered_at = some now) ∧
    (∀ (pre post : Ledger) (a : AlertActivity) (now : Nat) (pmid : String),
       (∀ b ∈ pre, b.provider_message_id ≠ some pmid) →
       a.provider_message_id = some pmid →
       DeliveryTracker.mark_delivered (pre ++ a :: post) now pmid =
         (true, pre ++ { a with delivered_at := some now, error_message := none } :: post)) := by
  refine ⟨fun ledger now uid sig msg rc aid atype rs l2 a h => ?_,
    fun ledger now uid sig pmid aid atype rs l2 a h => ?_,
    fun pre post a now pmid hpre ha => ?_⟩
  · unfold DeliveryTracker.record_failure at h
    split at h
    · cases h
    · simp only [Except.ok.injEq, Prod.mk.injEq] at h
      rw [← h.2]
  · unfold DeliveryTracker.record_send at h
    split at h
    · cases h
    · simp only [Except.ok.injEq, Prod.mk.injEq] at h
      rw [← h.2]
  · have hany : (pre ++ a :: post).any
        (fun b => b.provider_message_id = some pmid) = true := by
      simp only [List.any_eq_true, decide_eq_true_eq]
      exact ⟨a, by simp, ha⟩
    have hupd := updateFirst_eq_of
      (fun b => decide (b.provider_message_id = some pmid))
      (fun b => { b with delivered_at := some now, error_message := none })
      pre a post (fun c hc => decide_eq_false (hpre c hc)) (decide_eq_true ha)
    simp [DeliveryTracker.mark_delivered, hany, hupd]

/-- Witness for `delivered_at_lifecycle` on a concrete failure record, a
concrete success record, and a concrete webhook confirmation. -/
theorem delivered_at_lifecycle_witness :
    ({ user_id := 1, area_id := none, event_signature := "s",
       alert_type := "immediate", risk_score := none,
       provider_message_id := none, error_message := some "boom",
       retry_count := 3, delivered_at := none,
       created_at := 7 } : AlertActivity).delivered_at = none ∧
    ({ user_id := 1, area_id := none, event_signature := "s2",
       alert_type := "immediate", risk_score := none,
       provider_message_id := some "m9", error_message := none,
       retry_count := 0, delivered_at := some 7,
       created_at := 7 } : AlertActivity).delivered_at = some 7 ∧
    DeliveryTracker.mark_delivered
      [{ user_id := 1, area_id := none, event_signature := "s2",
         alert_type := "immediate", risk_score := none,
         provider_message_id := some "m9", error_message := some "late",
         retry_count := 0, delivered_at := none, created_at := 7 }] 9 "m9" =
      (true,
       [{ user_id := 1, area_id := none, event_signature := "s2",
          alert_type := "immediate", risk_score := none,
          provider_message_id := some "m9", error_message := none,
          retry_count := 0, delivered_at := some 9, created_at := 7 }]) := by
  refine ⟨?_, ?_, ?_⟩
  · exact delivered_at_lifecycle.1 [] 7 1 "s" "boom" 3 none "immediate" none _ _ rfl
  · exact delivered_at_lifecycle.2.1 [] 7 1 "s2" "m9" none "immediate" none _ _ rfl
  · have := delivered_at_lifecycle.2.2 [] []
      { user_id := 1, area_id := none, event_signature := "s2",
        alert_type := "immediate", risk_score := none,
        provider_message_id := some "m9", error_message := some "late",
        retry_count := 0, delivered_at := none, created_at := 7 } 9 "m9"
      (by simp) rfl
    simpa using this

/-- C7: the preference-eligibility predicate `should_send_alert` is a pure
function of `(preference, risk_level, now)`; it returns false whenever the
preference is not opted in, whenever `paused_until` lies in the future, and
whenever `now` lies within the closed blackout interval; and once
`now ≥ paused_until` the pause gate no longer blocks — the predicate agrees
with the same preference with the pause cleared. -/
theorem should_send_alert_gates :
    (∀ (pref : Notifications.NotificationPreference) (risk : Int) (now : Nat),
       pref.opted_in = false → Notifications.should_send_alert pref risk now = false) ∧
    (∀ (pref : Notifications.NotificationPreference) (risk : Int) (now pu : Nat),
       pref.paused_until = some pu → now < pu →
       Notifications.should_send_alert pref risk now = false) ∧
    (∀ (pref : Notifications.NotificationPreference) (risk : Int) (now pu : Nat),
       pref.paused_until = some pu → pu ≤ now →
       Notifications.should_send_alert pref risk now =
         Notifications.should_send_alert { pref with paused_until := none } risk now) ∧
    (∀ (pref : Notifications.NotificationPreference) (risk : Int) (now bs be : Nat),
       pref.blackout_start = some bs → pref.blackout_end = some be →
       bs ≤ now → now ≤ be →
       Notifications.should_send_alert pref risk now = false) := by
  refine ⟨fun pref risk now h => ?_, fun pref risk now pu h hlt => ?_,
    fun pref risk now pu h hge => ?_, fun pref risk now bs be h1 h2 h3 h4 => ?_⟩
  · simp [Notifications.should_send_alert, h]
  · obtain ⟨u, o, fr, rt, p, b1, b2, ls, un⟩ := pref
    cases h
    simp [Notifications.should_send_alert, hlt]
  · obtain ⟨u, o, fr, rt, p, b1, b2, ls, un⟩ := pref
    cases h
    simp [Notifications.should_send_alert, Nat.not_lt.mpr hge]
  · obtain ⟨u, o, fr, rt, p, b1, b2, ls, un⟩ := pref
    cases h1; cases h2
    by_cases hpu : (match p with
        | some pu => decide (now < pu)
        | none => false) = true
    · simp [Notifications.should_send_alert, hpu]
    · simp [Notifications.should_send_alert, hpu, h3, h4]

/-- Witness for `should_send_alert_gates` on a concrete preference: not
opted in blocks; a future pause blocks; an elapsed pause is equivalent to no
pause; an in-blackout time blocks. -/
theorem should_send_alert_gates_witness :
    Notifications.should_send_alert
      { user_id := 1, opted_in := false, frequency := "instant",
        risk_threshold := 0, paused_until := none, blackout_start := none,
        blackout_end := none, last_sent_at := none, unsubscribed_at := none }
      80 5 = false ∧
    Notifications.should_send_alert
      { user_id := 1, opted_in := true, frequency := "instant",
        risk_threshold := 0, paused_until := some 9, blackout_start := none,
        blackout_end := none, last_sent_at := none, unsubscribed_at := none }
      80 5 = false ∧
    Notifications.should_send_alert
      { user_id := 1, opted_in := true, frequency := "instant",
        risk_threshold := 0, paused_until := some 3, blackout_start := none,
        blackout_end := none, last_sent_at := none, unsubscribed_at := none }
      80 5 =
    Notifications.should_send_alert
      { user_id := 1, opted_in := true, frequency := "instant",
        risk_threshold := 0, paused_until := none, blackout_start := none,
        blackout_end := none, last_sent_at := none, unsubscribed_at := none }
      80 5 ∧
    Notifications.should_send_alert
      { user_id := 1, opted_in := true, frequency := "instant",
        risk_threshold := 0, paused_until := none, blackout_start := some 4,
        blackout_end := some 6, last_sent_at := none, unsubscribed_at := none }
      80 5 = false := by
  refine ⟨?_, ?_, ?_, ?_⟩
  · exact should_send_alert_gates.1 _ 80 5 rfl
  · exact should_send_alert_gates.2.1 _ 80 5 9 rfl (by decide)
  · exact should_send_alert_gates.2.2.1 _ 80 5 3 rfl (by decide)
  · exact should_send_alert_gates.2.2.2 _ 80 5 4 6 rfl rfl (by decide) (by decide)

/-- C2: `is_duplicate` decides exactly the spec contract — a row with this
`(user_id, signature)` exists whose `created_at` lies within the configured
dedup window measured backward from now (the Python default
`dedup_window_hours = 24`, the configured default `ALERT_DEDUP_WINDOW_HOURS`,
is the instance `w = 24`). -/
theorem is_duplicate_iff_spec :
    ∀ (w : Nat) (ledger : Ledger) (now user_id : Nat) (sig : String),
      DeliveryTracker.is_duplicate w ledger now user_id sig = true ↔
        specIsDuplicate w ledger now user_id sig := by
  intro w ledger now user_id sig
  simp only [DeliveryTracker.is_duplicate, List.any_eq_true, decide_eq_true_eq,
    specIsDuplicate, ge_iff_le]
  constructor
  · rintro ⟨a, ha, h1, h2, h3⟩
    exact ⟨a, ha, h1, h2, by omega⟩
  · rintro ⟨a, ha, h1, h2, h3⟩
    exact ⟨a, ha, h1, h2, by omega⟩


/-- The blackout guard passes when the updated pair is not inverted. -/
theorem blackoutCheck_ok (pref : Notifications.NotificationPreference)
    (h : ∀ bs be, pref.blackout_start = some bs → pref.blackout_end = some be → bs ≤ be) :
    Notifications.blackoutCheck pref = .ok pref := by
  rcases hbs : pref.blackout_start with _ | bs <;>
    rcases hbe : pref.blackout_end with _ | be <;>
    simp [Notifications.blackoutCheck, hbs, hbe]
  exact h bs be hbs hbe

/-- The blackout guard rejects an inverted pair. -/
theorem blackoutCheck_error (pref : Notifications.NotificationPreference)
    (bs be : Nat) (h1 : pref.blackout_start = some bs)
    (h2 : pref.blackout_end = some be) (h : bs > be) :
    Notifications.blackoutCheck pref =
      .error "blackout_start must be before blackout_end" := by
  simp [Notifications.blackoutCheck, h1, h2, h]

/-- With a valid frequency and threshold, `_apply_preference_updates` is the
blackout guard applied to the field-wise update of the stored row. -/
theorem apply_updates_reduces (stored : Notifications.NotificationPreference)
    (data : Notifications.PrefUpdateData)
    (hfreq : ∀ f, data.frequency = some f → f = "instant" ∨ f = "daily" ∨ f = "weekly")
    (hthr : ∀ t, data.risk_threshold = some t → 0 ≤ t ∧ t ≤ 100) :
    Notifications.apply_preference_updates stored data =
      Notifications.blackoutCheck (Notifications.appliedUpdates stored data) := by
  obtain ⟨u, o, fr, rt, p, b1, b2, ls, un⟩ := stored
  obtain ⟨df, dt, dp, dbs, dbe⟩ := data
  have hdf : df = none ∨ df = some "instant" ∨ df = some "daily" ∨ df = some "weekly" := by
    rcases df with _ | f
    · exact Or.inl rfl
    · rcases hfreq f rfl with h | h | h <;> subst h <;> simp
  have hdt : dt = none ∨ ∃ t, dt = some t ∧ 0 ≤ t ∧ t ≤ 100 := by
    rcases dt with _ | t
    · exact Or.inl rfl
    · exact Or.inr ⟨t, rfl, hthr t rfl⟩
  clear hfreq hthr
  rcases hdf with h | h | h | h <;> subst h <;>
    rcases hdt with h | ⟨t, h, ht0, ht1⟩ <;> subst h <;>
    rcases dp with _ | vp <;> rcases dbs with _ | vbs <;> rcases dbe with _ | vbe <;>
    simp_all [Notifications.apply_preference_updates, Notifications.appliedUpdates] <;>
    split_ifs with hsplit <;>
    first
    | exact absurd hsplit (by omega)
    | simp_all

/-- C9: a preference update is rejected with a specific validation error —
and the stored row stays uncommitted — whenever the request carries a
frequency outside {instant, daily, weekly}, a risk_threshold outside
[0, 100], or a blackout_start later than its blackout_end; a request that is
valid on all three counts is applied: every listed field present in the
request replaces the stored value. -/
theorem preference_update_validation :
    (∀ (stored : Notifications.NotificationPreference)
       (data : Notifications.PrefUpdateData),
       ((∃ f, data.frequency = some f ∧ f ≠ "instant" ∧ f ≠ "daily" ∧ f ≠ "weekly") ∨
        (∃ t, data.risk_threshold = some t ∧ (t < 0 ∨ t > 100)) ∨
        (∃ bs be, data.blackout_start = some (some bs) ∧
          data.blackout_end = some (some be) ∧ bs > be)) →
       (Notifications.updateEndpoint stored data).1.isSome = true ∧
       (Notifications.updateEndpoint stored data).2 = stored) ∧
    (∀ (stored : Notifications.NotificationPreference)
       (data : Notifications.PrefUpdateData),
       (∀ f, data.frequency = some f → f = "instant" ∨ f = "daily" ∨ f = "weekly") →
       (∀ t, data.risk_threshold = some t → 0 ≤ t ∧ t ≤ 100) →
       (∀ bs be, (Notifications.appliedUpdates stored data).blackout_start = some bs →
         (Notifications.appliedUpdates stored data).blackout_end = some be → bs ≤ be) →
       Notifications.updateEndpoint stored data =
         (none, Notifications.appliedUpdates stored data)) := by
  constructor
  · rintro ⟨u, o, fr, rt, p, b1, b2, ls, un⟩ ⟨df, dt, dp, dbs, dbe⟩
      (⟨f, hf, h1, h2, h3⟩ | ⟨t, ht, hr⟩ | ⟨bs, be, hbs, hbe, hlt⟩)
    · cases hf
      simp [Notifications.updateEndpoint, Notifications.apply_preference_updates,
        h1, h2, h3]
    · cases ht
      rcases df with _ | f
      · simp [Notifications.updateEndpoint, Notifications.apply_preference_updates, hr]
      · by_cases hf : f ≠ "instant" ∧ f ≠ "daily" ∧ f ≠ "weekly" <;>
          simp [Notifications.updateEndpoint, Notifications.apply_preference_updates,
            hf, hr]
    · cases hbs
      cases hbe
      rcases df with _ | f <;> rcases dt with _ | t <;> rcases dp with _ | vp <;>
        simp_all [Notifications.updateEndpoint, Notifications.apply_preference_updates,
          Notifications.blackoutCheck, hlt] <;>
        split_ifs <;> simp_all
  · intro stored data hfreq hthr hblack
    have hA := apply_updates_reduces stored data hfreq hthr
    have hB := blackoutCheck_ok (Notifications.appliedUpdates stored data) hblack
    simp [Notifications.updateEndpoint, hA, hB]

/-- Witness for `preference_update_validation`: a rejected bad-frequency
update on a concrete stored row, and an accepted full update. -/
theorem preference_update_validation_witness :
    (Notifications.updateEndpoint
      { user_id := 1, opted_in := true, frequency := "daily", risk_threshold := 10,
        paused_until := none, blackout_start := none, blackout_end := none,
        last_sent_at := none, unsubscribed_at := none }
      { frequency := some "hourly", risk_threshold := none, paused_until := none,
        blackout_start := none, blackout_end := none }).1.isSome = true ∧
    (Notifications.updateEndpoint
      { user_id := 1, opted_in := true, frequency := "daily", risk_threshold := 10,
        paused_until := none, blackout_start := none, blackout_end := none,
        last_sent_at := none, unsubscribed_at := none }
      { frequency := some "hourly", risk_threshold := none, paused_until := none,
        blackout_start := none, blackout_end := none }).2 =
      { user_id := 1, opted_in := true, frequency := "daily", risk_threshold := 10,
        paused_until := none, blackout_start := none, blackout_end := none,
        last_sent_at := none, unsubscribed_at := none } ∧
    Notifications.updateEndpoint
      { user_id := 1, opted_in := true, frequency := "daily", risk_threshold := 10,
        paused_until := none, blackout_start := none, blackout_end := none,
        last_sent_at := none, unsubscribed_at := none }
      { frequency := some "instant", risk_threshold := some 55,
        paused_until := some (some 5), blackout_start := some (some 2),
        blackout_end := some (some 8) } =
      (none,
       { user_id := 1, opted_in := true, frequency := "instant", risk_threshold := 55,
         paused_until := some 5, blackout_start := some 2, blackout_end := some 8,
         last_sent_at := none, unsubscribed_at := none }) := by
  refine ⟨?_, ?_, ?_⟩
  · exact (preference_update_validation.1 _ _
      (Or.inl ⟨"hourly", rfl, by decide, by decide, by decide⟩)).1
  · exact (preference_update_validation.1 _ _
      (Or.inl ⟨"hourly", rfl, by decide, by decide, by decide⟩)).2
  · have h := preference_update_validation.2
      { user_id := 1, opted_in := true, frequency := "daily", risk_threshold := 10,
        paused_until := none, blackout_start := none, blackout_end := none,
        last_sent_at := none, unsubscribed_at := none }
      { frequency := some "instant", risk_threshold := some 55,
        paused_until := some (some 5), blackout_start := some (some 2),
        blackout_end := some (some 8) }
      (fun f hf => by injection hf with hf; exact Or.inl hf.symm)
      (fun t ht => by injection ht with ht; omega)
      (fun bs be h1 h2 => by
        simp [Notifications.appliedUpdates] at h1 h2
        omega)
    simpa [Notifications.appliedUpdates] using h

/-- C5 counterexample: a stored `risk_threshold` of 0 does not admit every
risk score.  Python evaluates `pref.risk_threshold or risk_threshold`, and 0
is falsy, so the stored 0 falls back to the call-site default 70: a score of
50 against a stored threshold of 0 is rejected as below-threshold instead of
being sent. -/
theorem stored_zero_threshold_falls_back :
    EmailSender.send_immediate_alert
      { cfg := { max_retries := 3, alert_dedup_window_hours := 24 },
        provider := fun _ => { success := true, provider_message_id := some "m" },
        render_immediate_alert := fun _ _ _ => ("", ""),
        get_user_email := fun _ => "u@example.com" }
      { prefs := [{ user_id := 1, frequency := "instant", risk_threshold := some 0,
                    is_paused := false, email := none }],
        areas := [], ledger := [] }
      0 1 1 "Valley" 50 none none 70 =
      .ok (belowThresholdResult,
           { prefs := [{ user_id := 1, frequency := "instant", risk_threshold := some 0,
                         is_paused := false, email := none }],
             areas := [], ledger := [] }) := by
  rfl

/-- C5 amended: if the user's preference row is absent or paused, or its
frequency is not instant/immediate, the result is the NotSubscribed outcome;
otherwise, if `risk_score` is below the effective threshold —
`pref.risk_threshold or risk_threshold`, i.e. the stored threshold unless it
is NULL or 0, in which case the `risk_threshold` argument (70 at every call
site) applies — the result is the BelowThreshold outcome.  A stored
threshold of 0 therefore does not admit every score; it falls back to 70. -/
theorem send_immediate_alert_gates :
    (∀ (es : EmailSender) (db : DB) (now uid aid : Nat) (aname : String)
       (risk : Int) (factors : Option (List String)) (uemail : Option String)
       (rt : Int),
       db.prefs.find? (fun p => p.user_id == uid && !p.is_paused) = none →
       es.send_immediate_alert db now uid aid aname risk factors uemail rt =
         .ok (notSubscribedResult, db)) ∧
    (∀ (es : EmailSender) (db : DB) (now uid aid : Nat) (aname : String)
       (risk : Int) (factors : Option (List String)) (uemail : Option String)
       (rt : Int) (pref : UserAlertPreference),
       db.prefs.find? (fun p => p.user_id == uid && !p.is_paused) = some pref →
       pref.frequency ≠ "instant" → pref.frequency ≠ "immediate" →
       es.send_immediate_alert db now uid aid aname risk factors uemail rt =
         .ok (notSubscribedResult, db)) ∧
    (∀ (es : EmailSender) (db : DB) (now uid aid : Nat) (aname : String)
       (risk : Int) (factors : Option (List String)) (uemail : Option String)
       (rt : Int) (pref : UserAlertPreference),
       db.prefs.find? (fun p => p.user_id == uid && !p.is_paused) = some pref →
       (pref.frequency = "instant" ∨ pref.frequency = "immediate") →
       risk < pyOrNum pref.risk_threshold rt →
       es.send_immediate_alert db now uid aid aname risk factors uemail rt =
         .ok (belowThresholdResult, db)) := by
  refine ⟨fun es db now uid aid aname risk factors uemail rt hfind => ?_,
    fun es db now uid aid aname risk factors uemail rt pref hfind h1 h2 => ?_,
    fun es db now uid aid aname risk factors uemail rt pref hfind hf hlt => ?_⟩
  · unfold EmailSender.send_immediate_alert
    rw [hfind]
  · unfold EmailSender.send_immediate_alert
    rw [hfind]
    simp [h1, h2]
  · unfold EmailSender.send_immediate_alert
    rw [hfind]
    have hne : ¬(pref.frequency ≠ "instant" ∧ pref.frequency ≠ "immediate") := by
      rcases hf with h | h <;> simp [h]
    simp [hne, hlt]

/-- Witness for `send_immediate_alert_gates`: no preference row, a daily-only
preference, and an instant preference with a stored threshold of 60 against a
score of 50. -/
theorem send_immediate_alert_gates_witness :
    EmailSender.send_immediate_alert
      { cfg := { max_retries := 3, alert_dedup_window_hours := 24 },
        provider := fun _ => { success := true, provider_message_id := some "m" },
        render_immediate_alert := fun _ _ _ => ("", ""),
        get_user_email := fun _ => "u@example.com" }
      { prefs := [], areas := [], ledger := [] }
      0 1 1 "Valley" 90 none none 70 =
      .ok (notSubscribedResult, { prefs := [], areas := [], ledger := [] }) ∧
    EmailSender.send_immediate_alert
      { cfg := { max_retries := 3, alert_dedup_window_hours := 24 },
        provider := fun _ => { success := true, provider_message_id := some "m" },
        render_immediate_alert := fun _ _ _ => ("", ""),
        get_user_email := fun _ => "u@example.com" }
      { prefs := [{ user_id := 1, frequency := "daily", risk_threshold := some 10,
                    is_paused := false, email := none }],
        areas := [], ledger := [] }
      0 1 1 "Valley" 90 none none 70 =
      .ok (notSubscribedResult,
           { prefs := [{ user_id := 1, frequency := "daily", risk_threshold := some 10,
                         is_paused := false, email := none }],
             areas := [], ledger := [] }) ∧
    EmailSender.send_immediate_alert
      { cfg := { max_retries := 3, alert_dedup_window_hours := 24 },
        provider := fun _ => { success := true, provider_message_id := some "m" },
        render_immediate_alert := fun _ _ _ => ("", ""),
        get_user_email := fun _ => "u@example.com" }
      { prefs := [{ user_id := 1, frequency := "instant", risk_threshold := some 60,
                    is_paused := false, email := none }],
        areas := [], ledger := [] }
      0 1 1 "Valley" 50 none none 70 =
      .ok (belowThresholdResult,
           { prefs := [{ user_id := 1, frequency := "instant", risk_threshold := some 60,
                         is_paused := false, email := none }],
             areas := [], ledger := [] }) := by
  refine ⟨?_, ?_, ?_⟩
  · exact send_immediate_alert_gates.1 _ _ 0 1 1 "Valley" 90 none none 70 rfl
  · exact send_immediate_alert_gates.2.1 _ _ 0 1 1 "Valley" 90 none none 70 _ rfl
      (by decide) (by decide)
  · exact send_immediate_alert_gates.2.2 _ _ 0 1 1 "Valley" 50 none none 70 _ rfl
      (Or.inl rfl) (by decide)

/-- C3: the failing input — the dedup window is configured to 1 hour, a send
for user 1 succeeded at hour 25 (row with signature `1:high:1`), and the same
event recurs at hour 30 of the same day.  The window has elapsed, so
`is_duplicate` is false and the send proceeds, but the
`(user_id, event_signature)` pair still exists in the ledger, so the insert in
`record_send` hits the unique constraint.  Instead of returning `None` (its
own docstring) or being treated by the caller as a no-op success (the spec),
the exception is re-raised and propagates out of `send_immediate_alert`. -/
theorem record_send_conflict_raises :
    DeliveryTracker.record_send
      [{ user_id := 1, area_id := some 1, event_signature := "1:high:1",
         alert_type := "immediate", risk_score := some 75,
         provider_message_id := some "m1", error_message := none,
         retry_count := 0, delivered_at := some 25, created_at := 25 }]
      30 1 "1:high:1" "m2" (some 1) "immediate" (some 75) =
      .error .uniqueViolation ∧
    EmailSender.send_immediate_alert
      { cfg := { max_retries := 3, alert_dedup_window_hours := 1 },
        provider := fun _ => { success := true, provider_message_id := some "m2" },
        render_immediate_alert := fun _ _ _ => ("", ""),
        get_user_email := fun _ => "u@example.com" }
      { prefs := [{ user_id := 1, frequency := "instant", risk_threshold := some 50,
                    is_paused := false, email := none }],
        areas := [],
        ledger := [{ user_id := 1, area_id := some 1, event_signature := "1:high:1",
                     alert_type := "immediate", risk_score := some 75,
                     provider_message_id := some "m1", error_message := none,
                     retry_count := 0, delivered_at := some 25, created_at := 25 }] }
      30 1 1 "Valley" 75 none none 70 =
      .error .uniqueViolation := by
  exact ⟨rfl, rfl⟩

/-- Helper: `record_failure` succeeding appends exactly its failure row. -/
theorem record_failure_ok (ledger : Ledger) (now uid : Nat) (sig msg : String)
    (rc : Nat) (aid : Option Nat) (atype : String) (rsc : Option Int)
    (l2 : Ledger) (a : AlertActivity)
    (h : DeliveryTracker.record_failure ledger now uid sig msg rc aid atype rsc =
      .ok (l2, a)) :
    l2 = ledger ++ [a] ∧
    a = { user_id := uid, area_id := aid, event_signature := sig,
          alert_type := atype, risk_score := rsc, provider_message_id := none,
          error_message := some msg, retry_count := rc, delivered_at := none,
          created_at := now } := by
  unfold DeliveryTracker.record_failure at h
  split at h
  · cases h
  · simp only [Except.ok.injEq, Prod.mk.injEq] at h
    obtain ⟨h1, h2⟩ := h
    subst h2
    exact ⟨h1.symm, rfl⟩

/-- Helper: `record_send` succeeding appends exactly its success row. -/
theorem record_send_ok (ledger : Ledger) (now uid : Nat) (sig pmid : String)
    (aid : Option Nat) (atype : String) (rsc : Option Int)
    (l2 : Ledger) (a : AlertActivity)
    (h : DeliveryTracker.record_send ledger now uid sig pmid aid atype rsc =
      .ok (l2, a)) :
    l2 = ledger ++ [a] ∧
    a = { user_id := uid, area_id := aid, event_signature := sig,
          alert_type := atype, risk_score := rsc,
          provider_message_id := some pmid, error_message := none,
          retry_count := 0, delivered_at := some now, created_at := now } := by
  unfold DeliveryTracker.record_send at h
  split at h
  · cases h
  · simp only [Except.ok.injEq, Prod.mk.injEq] at h
    obtain ⟨h1, h2⟩ := h
    subst h2
    exact ⟨h1.symm, rfl⟩

/-- A matching in-window row makes `is_duplicate` true. -/
theorem is_duplicate_of_mem (W : Nat) (ledger : Ledger) (now2 uid : Nat)
    (sig : String) (a : AlertActivity) (ha : a ∈ ledger) (h1 : a.user_id = uid)
    (h2 : a.event_signature = sig) (h3 : now2 ≤ a.created_at + W) :
    DeliveryTracker.is_duplicate W ledger now2 uid sig = true := by
  simp only [DeliveryTracker.is_duplicate, List.any_eq_true, decide_eq_true_eq,
    ge_iff_le]
  exact ⟨a, ha, h1, h2, by omega⟩

/-- An eligible preference plus a dedup hit short-circuits
`send_immediate_alert` to the Duplicate outcome, leaving the state alone. -/
theorem send_duplicate_of (es : EmailSender) (db : DB) (now2 uid aid : Nat)
    (aname : String) (risk : Int) (factors : Option (List String))
    (uemail : Option String) (rt : Int) (pref : UserAlertPreference)
    (hfind : db.prefs.find? (fun p => p.user_id == uid && !p.is_paused) = some pref)
    (hf : pref.frequency = "instant" ∨ pref.frequency = "immediate")
    (ht : ¬(risk < pyOrNum pref.risk_threshold rt))
    (hdup : DeliveryTracker.is_duplicate es.cfg.alert_dedup_window_hours db.ledger
        now2 uid (event_signature aid risk (dateStr now2)) = true) :
    es.send_immediate_alert db now2 uid aid aname risk factors uemail rt =
      .ok (duplicateResult, db) := by
  unfold EmailSender.send_immediate_alert
  rw [hfind]
  have hne : ¬(pref.frequency ≠ "instant" ∧ pref.frequency ≠ "immediate") := by
    rcases hf with h | h <;> simp [h]
  simp [hne, ht, hdup]

/-- C10: a failed send attempt arms the dedup gate.  After `record_failure`
inserts its row, `is_duplicate` answers true for that `(user_id, signature)`
throughout the dedup window, so any `send_immediate_alert` whose event
signature equals the recorded one (same area, risk bucket and day) returns
the Duplicate outcome for an eligible preference — no email was ever sent,
and inline re-attempts are blocked; only the retry sweep sees the row via
`get_failed_alerts` while its `retry_count` is below the sweep's maximum. -/
theorem record_failure_blocks_resend :
    ∀ (ledger : Ledger) (now uid : Nat) (sig msg : String) (rc : Nat)
      (aid : Option Nat) (atype : String) (rsc : Option Int)
      (l2 : Ledger) (a : AlertActivity),
      DeliveryTracker.record_failure ledger now uid sig msg rc aid atype rsc =
        .ok (l2, a) →
      (∀ W now2 : Nat, now2 ≤ now + W →
        DeliveryTracker.is_duplicate W l2 now2 uid sig = true) ∧
      (∀ (es : EmailSender) (db : DB) (now2 aid2 : Nat) (aname : String)
         (risk : Int) (factors : Option (List String)) (uemail : Option String)
         (rt : Int) (pref : UserAlertPreference),
         db.ledger = l2 →
         now2 ≤ now + es.cfg.alert_dedup_window_hours →
         event_signature aid2 risk (dateStr now2) = sig →
         db.prefs.find? (fun p => p.user_id == uid && !p.is_paused) = some pref →
         (pref.frequency = "instant" ∨ pref.frequency = "immediate") →
         ¬(risk < pyOrNum pref.risk_threshold rt) →
         es.send_immediate_alert db now2 uid aid2 aname risk factors uemail rt =
           .ok (duplicateResult, db)) ∧
      (∀ mrc : Nat, rc < mrc → a ∈ DeliveryTracker.get_failed_alerts mrc l2) := by
  intro ledger now uid sig msg rc aid atype rsc l2 a h
  obtain ⟨hl, ha⟩ := record_failure_ok ledger now uid sig msg rc aid atype rsc l2 a h
  have hmem : a ∈ l2 := by
    rw [hl]
    simp
  refine ⟨fun W now2 hwin => ?_, fun es db now2 aid2 aname risk factors uemail rt pref
    hdb hwin hsig hfind hf ht => ?_, fun mrc hrc => ?_⟩
  · exact is_duplicate_of_mem W l2 now2 uid sig a hmem (by rw [ha]) (by rw [ha])
      (by rw [ha]; simpa using hwin)
  · refine send_duplicate_of es db now2 uid aid2 aname risk factors uemail rt pref
      hfind hf ht ?_
    rw [hsig, hdb]
    exact is_duplicate_of_mem _ l2 now2 uid sig a hmem (by rw [ha]) (by rw [ha])
      (by rw [ha]; simpa using hwin)
  · unfold DeliveryTracker.get_failed_alerts
    rw [List.mem_filter]
    refine ⟨hmem, ?_⟩
    rw [ha]
    simp [hrc]

/-- Helper: `send_immediate_alert` never touches the preference or area tables and
only appends to the ledger. -/
theorem send_immediate_alert_preserves (es : EmailSender) (db : DB)
    (now uid aid : Nat) (aname : String) (risk : Int)
    (factors : Option (List String)) (uemail : Option String) (rt : Int)
    (r : SendResult) (db' : DB)
    (h : es.send_immediate_alert db now uid aid aname risk factors uemail rt =
      .ok (r, db')) :
    db'.prefs = db.prefs ∧ db'.areas = db.areas ∧ db.ledger ⊆ db'.ledger := by
  unfold EmailSender.send_immediate_alert at h
  simp only [] at h
  split at h
  · simp only [Except.ok.injEq, Prod.mk.injEq] at h
    rw [← h.2]
    exact ⟨rfl, rfl, List.Subset.refl _⟩
  · split at h
    · simp only [Except.ok.injEq, Prod.mk.injEq] at h
      rw [← h.2]
      exact ⟨rfl, rfl, List.Subset.refl _⟩
    · split at h
      · simp only [Except.ok.injEq, Prod.mk.injEq] at h
        rw [← h.2]
        exact ⟨rfl, rfl, List.Subset.refl _⟩
      · split at h
        · simp only [Except.ok.injEq, Prod.mk.injEq] at h
          rw [← h.2]
          exact ⟨rfl, rfl, List.Subset.refl _⟩
        · split at h
          · split at h
            · rename_i heq
              simp only [Except.ok.injEq, Prod.mk.injEq] at h
              rw [← h.2]
              obtain ⟨hl, _⟩ := record_send_ok _ _ _ _ _ _ _ _ _ _ heq
              refine ⟨rfl, rfl, ?_⟩
              rw [hl]
              exact List.subset_append_left _ _
            · cases h
          · split at h
            · rename_i heq
              simp only [Except.ok.injEq, Prod.mk.injEq] at h
              rw [← h.2]
              obtain ⟨hl, _⟩ := record_failure_ok _ _ _ _ _ _ _ _ _ _ _ heq
              refine ⟨rfl, rfl, ?_⟩
              rw [hl]
              exact List.subset_append_left _ _
            · cases h

/-- A successful `send_immediate_alert` passed every gate and appended a
ledger row carrying its user, signature and timestamp. -/
theorem send_success_row (es : EmailSender) (db : DB) (now uid aid : Nat)
    (aname : String) (risk : Int) (factors : Option (List String))
    (uemail : Option String) (rt : Int) (r : SendResult) (db' : DB)
    (h : es.send_immediate_alert db now uid aid aname risk factors uemail rt =
      .ok (r, db'))
    (hs : r.success = true) :
    ∃ pref, db.prefs.find? (fun p => p.user_id == uid && !p.is_paused) = some pref ∧
      (pref.frequency = "instant" ∨ pref.frequency = "immediate") ∧
      ¬(risk < pyOrNum pref.risk_threshold rt) ∧
      ∃ row ∈ db'.ledger, row.user_id = uid ∧
        row.event_signature = event_signature aid risk (dateStr now) ∧
        row.created_at = now := by
  unfold EmailSender.send_immediate_alert at h
  simp only [] at h
  split at h
  · simp only [Except.ok.injEq, Prod.mk.injEq] at h
    rw [← h.1] at hs
    cases hs
  · rename_i pref hfind
    split at h
    · simp only [Except.ok.injEq, Prod.mk.injEq] at h
      rw [← h.1] at hs
      cases hs
    · rename_i hfreq
      split at h
      · simp only [Except.ok.injEq, Prod.mk.injEq] at h
        rw [← h.1] at hs
        cases hs
      · rename_i hthr
        split at h
        · simp only [Except.ok.injEq, Prod.mk.injEq] at h
          rw [← h.1] at hs
          cases hs
        · refine ⟨pref, hfind, ?_, hthr, ?_⟩
          · rcases not_and_or.mp hfreq with hf | hf
            · exact Or.inl (not_not.mp hf)
            · exact Or.inr (not_not.mp hf)
          · split at h
            · split at h
              · rename_i ledger2 act heq
                simp only [Except.ok.injEq, Prod.mk.injEq] at h
                obtain ⟨hl, hrow⟩ := record_send_ok _ _ _ _ _ _ _ _ _ _ heq
                refine ⟨act, ?_, by rw [hrow], by rw [hrow], by rw [hrow]⟩
                rw [← h.2, hl]
                simp
              · cases h
            · rename_i hns
              split at h
              · rename_i heq
                simp only [Except.ok.injEq, Prod.mk.injEq] at h
                rw [← h.1] at hs
                exact absurd hs hns
              · cases h

/-- The per-event inner loop preserves the preference and area tables and
only grows the ledger. -/
theorem processAreaUsers_preserves (es : EmailSender) (ev : RiskEvent) (now : Nat) :
    ∀ (uas : List UserMonitoredArea) (db : DB) (seen : List (Nat × Nat))
      (rs : List SendResult) (db' : DB) (seen' : List (Nat × Nat)),
      es.processAreaUsers ev now uas db seen = .ok (rs, db', seen') →
      db'.prefs = db.prefs ∧ db'.areas = db.areas ∧ db.ledger ⊆ db'.ledger := by
  intro uas
  induction uas with
  | nil =>
    intro db seen rs db' seen' h
    simp only [EmailSender.processAreaUsers, Except.ok.injEq, Prod.mk.injEq] at h
    rw [← h.2.1]
    exact ⟨rfl, rfl, List.Subset.refl _⟩
  | cons ua rest ih =>
    intro db seen rs db' seen' h
    by_cases hmem : (ua.user_id, ua.id) ∈ seen
    · rw [EmailSender.processAreaUsers, if_pos hmem] at h
      exact ih db seen rs db' seen' h
    · rw [EmailSender.processAreaUsers, if_neg hmem] at h
      split at h
      · cases h
      · rename_i hsend
        split at h
        · cases h
        · rename_i hrest
          simp only [Except.ok.injEq, Prod.mk.injEq] at h
          obtain ⟨hp2, ha2, hl2⟩ :=
            send_immediate_alert_preserves _ _ _ _ _ _ _ _ _ _ _ _ hsend
          obtain ⟨hp3, ha3, hl3⟩ := ih _ _ _ _ _ hrest
          rw [← h.2.1]
          exact ⟨hp3.trans hp2, ha3.trans ha2, hl2.trans hl3⟩

/-- The event loop preserves the preference and area tables and only grows
the ledger. -/
theorem processEvents_preserves (es : EmailSender) (now : Nat) :
    ∀ (events : List RiskEvent) (db : DB) (seen : List (Nat × Nat))
      (rs : List SendResult) (db' : DB) (seen' : List (Nat × Nat)),
      es.processEvents now events db seen = .ok (rs, db', seen') →
      db'.prefs = db.prefs ∧ db'.areas = db.areas ∧ db.ledger ⊆ db'.ledger := by
  intro events
  induction events with
  | nil =>
    intro db seen rs db' seen' h
    simp only [EmailSender.processEvents, Except.ok.injEq, Prod.mk.injEq] at h
    rw [← h.2.1]
    exact ⟨rfl, rfl, List.Subset.refl _⟩
  | cons ev rest ih =>
    intro db seen rs db' seen' h
    rw [EmailSender.processEvents] at h
    split at h
    · cases h
    · rename_i hev
      split at h
      · cases h
      · rename_i hrest
        simp only [Except.ok.injEq, Prod.mk.injEq] at h
        obtain ⟨hp2, ha2, hl2⟩ := processAreaUsers_preserves _ _ _ _ _ _ _ _ _ hev
        obtain ⟨hp3, ha3, hl3⟩ := ih _ _ _ _ _ hrest
        rw [← h.2.1]
        exact ⟨hp3.trans hp2, ha3.trans ha2, hl2.trans hl3⟩

/-- Re-running the per-event loop over the same monitored-area rows, against
a state that already contains everything the first run recorded (within the
window and on the same day), turns every first-run success into a Duplicate
outcome and replays the same `seen` evolution. -/
theorem processAreaUsers_idem (es : EmailSender) (ev : RiskEvent) (now1 now2 : Nat)
    (hday : now1 / 24 = now2 / 24)
    (hwin : now2 ≤ now1 + es.cfg.alert_dedup_window_hours) (L1 : Ledger) :
    ∀ (uas : List UserMonitoredArea) (dbA dbB : DB) (seen : List (Nat × Nat))
      (rsA : List SendResult) (dbAEnd : DB) (seenA : List (Nat × Nat))
      (rsB : List SendResult) (dbBEnd : DB) (seenB : List (Nat × Nat)),
      es.processAreaUsers ev now1 uas dbA seen = .ok (rsA, dbAEnd, seenA) →
      es.processAreaUsers ev now2 uas dbB seen = .ok (rsB, dbBEnd, seenB) →
      dbA.prefs = dbB.prefs →
      dbAEnd.ledger ⊆ L1 → L1 ⊆ dbB.ledger →
      List.Forall₂ (fun r1 r2 => r1.success = true → r2 = duplicateResult) rsA rsB ∧
      seenA = seenB := by
  intro uas
  induction uas with
  | nil =>
    intro dbA dbB seen rsA dbAEnd seenA rsB dbBEnd seenB hA hB hpref hsub1 hsub2
    simp only [EmailSender.processAreaUsers, Except.ok.injEq, Prod.mk.injEq] at hA hB
    rw [← hA.1, ← hB.1, ← hA.2.2, ← hB.2.2]
    exact ⟨List.Forall₂.nil, rfl⟩
  | cons ua rest ih =>
    intro dbA dbB seen rsA dbAEnd seenA rsB dbBEnd seenB hA hB hpref hsub1 hsub2
    by_cases hmem : (ua.user_id, ua.id) ∈ seen
    · rw [EmailSender.processAreaUsers, if_pos hmem] at hA hB
      exact ih dbA dbB seen _ _ _ _ _ _ hA hB hpref hsub1 hsub2
    · rw [EmailSender.processAreaUsers, if_neg hmem] at hA hB
      split at hA
      · cases hA
      · rename_i rA dbA2 hsendA
        split at hA
        · cases hA
        · rename_i rsA2 dbA3 seenA3 hrestA
          simp only [Except.ok.injEq, Prod.mk.injEq] at hA
          split at hB
          · cases hB
          · rename_i rB dbB2 hsendB
            split at hB
            · cases hB
            · rename_i rsB2 dbB3 seenB3 hrestB
              simp only [Except.ok.injEq, Prod.mk.injEq] at hB
              obtain ⟨hA1, hA2, hA3⟩ := hA
              obtain ⟨hB1, hB2, hB3⟩ := hB
              subst hA1 hA2 hA3 hB1 hB2 hB3
              obtain ⟨hpA2, haA2, hlA2⟩ :=
                send_immediate_alert_preserves _ _ _ _ _ _ _ _ _ _ _ _ hsendA
              obtain ⟨hpB2, haB2, hlB2⟩ :=
                send_immediate_alert_preserves _ _ _ _ _ _ _ _ _ _ _ _ hsendB
              obtain ⟨hpA3, haA3, hlA3⟩ :=
                processAreaUsers_preserves _ _ _ _ _ _ _ _ _ hrestA
              have hhead : rA.success = true → rB = duplicateResult := by
                intro hsucc
                obtain ⟨pref, hfind, hf, ht, row, hrow_mem, hrow_u, hrow_sig, hrow_t⟩ :=
                  send_success_row _ _ _ _ _ _ _ _ _ _ _ _ hsendA hsucc
                have hrow_in_B : row ∈ dbB.ledger := hsub2 (hsub1 (hlA3 hrow_mem))
                have hdup : DeliveryTracker.is_duplicate
                    es.cfg.alert_dedup_window_hours dbB.ledger now2 ua.user_id
                    (event_signature ua.id ev.risk_score (dateStr now2)) = true := by
                  refine is_duplicate_of_mem _ _ _ _ _ row hrow_in_B hrow_u ?_ ?_
                  · rw [hrow_sig]
                    unfold dateStr
                    rw [hday]
                  · rw [hrow_t]
                    exact hwin
                have hdupSend := send_duplicate_of es dbB now2 ua.user_id ua.id
                  (pyOrStr (some ua.area_name) ev.area_name) ev.risk_score
                  ev.contributing_factors none 70 pref
                  (by rw [← hpref]; exact hfind) hf ht hdup
                have hcomb := hsendB.symm.trans hdupSend
                simp only [Except.ok.injEq, Prod.mk.injEq] at hcomb
                exact hcomb.1
              have hpref2 : dbA2.prefs = dbB2.prefs := by
                rw [hpA2, hpB2]
                exact hpref
              obtain ⟨htail, hseen⟩ := ih dbA2 dbB2 ((ua.user_id, ua.id) :: seen)
                _ _ _ _ _ _ hrestA hrestB hpref2 hsub1 (hsub2.trans hlB2)
              exact ⟨List.Forall₂.cons hhead htail, hseen⟩

/-- Event-list version of `processAreaUsers_idem`: re-running the event loop
over the same events turns every first-run success into a Duplicate. -/
theorem processEvents_idem (es : EmailSender) (now1 now2 : Nat)
    (hday : now1 / 24 = now2 / 24)
    (hwin : now2 ≤ now1 + es.cfg.alert_dedup_window_hours) (L1 : Ledger) :
    ∀ (events : List RiskEvent) (dbA dbB : DB) (seen : List (Nat × Nat))
      (rsA : List SendResult) (dbAEnd : DB) (seenA : List (Nat × Nat))
      (rsB : List SendResult) (dbBEnd : DB) (seenB : List (Nat × Nat)),
      es.processEvents now1 events dbA seen = .ok (rsA, dbAEnd, seenA) →
      es.processEvents now2 events dbB seen = .ok (rsB, dbBEnd, seenB) →
      dbA.prefs = dbB.prefs → dbA.areas = dbB.areas →
      dbAEnd.ledger ⊆ L1 → L1 ⊆ dbB.ledger →
      List.Forall₂ (fun r1 r2 => r1.success = true → r2 = duplicateResult) rsA rsB ∧
      seenA = seenB := by
  intro events
  induction events with
  | nil =>
    intro dbA dbB seen rsA dbAEnd seenA rsB dbBEnd seenB hA hB hpref hareas hsub1 hsub2
    simp only [EmailSender.processEvents, Except.ok.injEq, Prod.mk.injEq] at hA hB
    rw [← hA.1, ← hB.1, ← hA.2.2, ← hB.2.2]
    exact ⟨List.Forall₂.nil, rfl⟩
  | cons ev rest ih =>
    intro dbA dbB seen rsA dbAEnd seenA rsB dbBEnd seenB hA hB hpref hareas hsub1 hsub2
    rw [EmailSender.processEvents] at hA hB
    rw [← hareas] at hB
    split at hA
    · cases hA
    · rename_i hevA
      split at hA
      · cases hA
      · rename_i hrestA
        simp only [Except.ok.injEq, Prod.mk.injEq] at hA
        split at hB
        · cases hB
        · rename_i hevB
          split at hB
          · cases hB
          · rename_i hrestB
            simp only [Except.ok.injEq, Prod.mk.injEq] at hB
            obtain ⟨hA1, hA2, hA3⟩ := hA
            obtain ⟨hB1, hB2, hB3⟩ := hB
            subst hA1 hA2 hA3 hB1 hB2 hB3
            obtain ⟨hpA2, haA2, hlA2⟩ :=
              processAreaUsers_preserves _ _ _ _ _ _ _ _ _ hevA
            obtain ⟨hpB2, haB2, hlB2⟩ :=
              processAreaUsers_preserves _ _ _ _ _ _ _ _ _ hevB
            obtain ⟨hpA3, haA3, hlA3⟩ :=
              processEvents_preserves _ _ _ _ _ _ _ _ hrestA
            obtain ⟨hF1, hseen12⟩ := processAreaUsers_idem es ev now1 now2 hday hwin L1
              (matchAreas dbA.areas ev) dbA dbB seen _ _ _ _ _ _ hevA hevB hpref
              (fun x hx => hsub1 (hlA3 hx)) hsub2
            subst hseen12
            obtain ⟨hF2, hseen23⟩ := ih _ _ _ _ _ _ _ _ _ hrestA hrestB
              (by rw [hpA2, hpB2]; exact hpref)
              (by rw [haA2, haB2]; exact hareas)
              hsub1 (hsub2.trans hlB2)
            exact ⟨List.rel_append hF1 hF2, hseen23⟩

/-- C1 amended: re-running `process_risk_alerts` with an identical event list
within the dedup window of the first run and on the same UTC calendar day
(the event signature embeds the calendar day, so a window that crosses
midnight produces a fresh signature instead of a Duplicate) gives a result
list of the same length in which every first-run send maps to the Duplicate
outcome. -/
theorem process_risk_alerts_idempotent (es : EmailSender)
    (events : List RiskEvent) (db0 db1 db2 : DB) (rs1 rs2 : List SendResult)
    (now1 now2 : Nat)
    (h1 : es.process_risk_alerts db0 now1 events = .ok (rs1, db1))
    (h2 : es.process_risk_alerts db1 now2 events = .ok (rs2, db2))
    (hday : now1 / 24 = now2 / 24)
    (hwin : now2 ≤ now1 + es.cfg.alert_dedup_window_hours) :
    List.Forall₂ (fun r1 r2 => r1.success = true → r2 = duplicateResult)
      rs1 rs2 := by
  unfold EmailSender.process_risk_alerts at h1 h2
  split at h1
  · cases h1
  · rename_i hpe1
    split at h2
    · cases h2
    · rename_i hpe2
      simp only [Except.ok.injEq, Prod.mk.injEq] at h1 h2
      obtain ⟨h11, h12⟩ := h1
      obtain ⟨h21, h22⟩ := h2
      subst h11
      subst h21
      rw [h12] at hpe1
      obtain ⟨hp1, ha1, _⟩ := processEvents_preserves _ _ _ _ _ _ _ _ hpe1
      exact (processEvents_idem es now1 now2 hday hwin db1.ledger events db0 db1 []
        _ _ _ _ _ _ hpe1 hpe2 hp1.symm ha1.symm (List.Subset.refl _)
        (List.Subset.refl _)).1

/-- C1 counterexample: a second identical `process_risk_alerts` run within
the 24-hour dedup window is NOT all-Duplicate when the window crosses
midnight.  The first run at hour 23 (day 0) sends; the second run at hour 25
(day 1, only 2 hours later and well inside the window) computes a fresh
signature for the new calendar day, misses the dedup gate and sends again —
its result is a success, not the Duplicate outcome the claim requires. -/
theorem process_risk_alerts_resends_across_midnight :
    EmailSender.process_risk_alerts
      { cfg := { max_retries := 0, alert_dedup_window_hours := 24 },
        provider := fun _ => { success := true, provider_message_id := some "m" },
        render_immediate_alert := fun _ _ _ => ("", ""),
        get_user_email := fun _ => "u@x.com" }
      { prefs := [{ user_id := 1, frequency := "instant", risk_threshold := some 50,
                    is_paused := false, email := none }],
        areas := [{ id := 1, user_id := 1, area_name := "Valley" }],
        ledger := [] }
      23
      [{ area_id := none, area_name := "Valley", risk_score := 75,
         contributing_factors := none }] =
      .ok ([{ success := true, provider_message_id := some "m",
              error_message := none }],
           { prefs := [{ user_id := 1, frequency := "instant",
                         risk_threshold := some 50, is_paused := false,
                         email := none }],
             areas := [{ id := 1, user_id := 1, area_name := "Valley" }],
             ledger := [{ user_id := 1, area_id := some 1,
                          event_signature := "1:high:0",
                          alert_type := "immediate", risk_score := some 75,
                          provider_message_id := some "m", error_message := none,
                          retry_count := 0, delivered_at := some 23,
                          created_at := 23 }] }) ∧
    EmailSender.process_risk_alerts
      { cfg := { max_retries := 0, alert_dedup_window_hours := 24 },
        provider := fun _ => { success := true, provider_message_id := some "m" },
        render_immediate_alert := fun _ _ _ => ("", ""),
        get_user_email := fun _ => "u@x.com" }
      { prefs := [{ user_id := 1, frequency := "instant", risk_threshold := some 50,
                    is_paused := false, email := none }],
        areas := [{ id := 1, user_id := 1, area_name := "Valley" }],
        ledger := [{ user_id := 1, area_id := some 1,
                     event_signature := "1:high:0", alert_type := "immediate",
                     risk_score := some 75, provider_message_id := some "m",
                     error_message := none, retry_count := 0,
                     delivered_at := some 23, created_at := 23 }] }
      25
      [{ area_id := none, area_name := "Valley", risk_score := 75,
         contributing_factors := none }] =
      .ok ([{ success := true, provider_message_id := some "m",
              error_message := none }],
           { prefs := [{ user_id := 1, frequency := "instant",
                         risk_threshold := some 50, is_paused := false,
                         email := none }],
             areas := [{ id := 1, user_id := 1, area_name := "Valley" }],
             ledger := [{ user_id := 1, area_id := some 1,
                          event_signature := "1:high:0",
                          alert_type := "immediate", risk_score := some 75,
                          provider_message_id := some "m", error_message := none,
                          retry_count := 0, delivered_at := some 23,
                          created_at := 23 },
                        { user_id := 1, area_id := some 1,
                          event_signature := "1:high:1",
                          alert_type := "immediate", risk_score := some 75,
                          provider_message_id := some "m", error_message := none,
                          retry_count := 0, delivered_at := some 25,
                          created_at := 25 }] }) ∧
    (25 : Nat) ≤ 23 + 24 ∧
    ({ success := true, provider_message_id := some "m",
       error_message := none } : SendResult) ≠ duplicateResult := by
  refine ⟨?_, ?_, by decide, by decide⟩ <;> rfl

/-- Witness for `process_risk_alerts_idempotent`: both runs at hour 23 of the
same day — the first run sends, the second maps that send to Duplicate. -/
theorem process_risk_alerts_idempotent_witness :
    List.Forall₂ (fun r1 r2 => r1.success = true → r2 = duplicateResult)
      ([{ success := true, provider_message_id := some "m",
          error_message := none }] : List SendResult)
      [duplicateResult] := by
  refine process_risk_alerts_idempotent
    { cfg := { max_retries := 0, alert_dedup_window_hours := 24 },
      provider := fun _ => { success := true, provider_message_id := some "m" },
      render_immediate_alert := fun _ _ _ => ("", ""),
      get_user_email := fun _ => "u@x.com" }
    [{ area_id := none, area_name := "Valley", risk_score := 75,
       contributing_factors := none }]
    { prefs := [{ user_id := 1, frequency := "instant", risk_threshold := some 50,
                  is_paused := false, email := none }],
      areas := [{ id := 1, user_id := 1, area_name := "Valley" }],
      ledger := [] }
    { prefs := [{ user_id := 1, frequency := "instant", risk_threshold := some 50,
                  is_paused := false, email := none }],
      areas := [{ id := 1, user_id := 1, area_name := "Valley" }],
      ledger := [{ user_id := 1, area_id := some 1,
                   event_signature := "1:high:0", alert_type := "immediate",
                   risk_score := some 75, provider_message_id := some "m",
                   error_message := none, retry_count := 0,
                   delivered_at := some 23, created_at := 23 }] }
    { prefs := [{ user_id := 1, frequency := "instant", risk_threshold := some 50,
                  is_paused := false, email := none }],
      areas := [{ id := 1, user_id := 1, area_name := "Valley" }],
      ledger := [{ user_id := 1, area_id := some 1,
                   event_signature := "1:high:0", alert_type := "immediate",
                   risk_score := some 75, provider_message_id := some "m",
                   error_message := none, retry_count := 0,
                   delivered_at := some 23, created_at := 23 }] }
    _ _ 23 23 ?_ ?_ rfl (by decide)
  · rfl
  · rfl

/-- Witness for `record_failure_blocks_resend`: a concrete failure recorded
at hour 10 blocks an eligible identical send at hour 12 with Duplicate, and
the failure row is visible to the retry sweep. -/
theorem record_failure_blocks_resend_witness :
    DeliveryTracker.is_duplicate 24
      [{ user_id := 1, area_id := some 1, event_signature := "1:high:0",
         alert_type := "immediate", risk_score := some 75,
         provider_message_id := none, error_message := some "SMTP error",
         retry_count := 3, delivered_at := none, created_at := 10 }]
      12 1 "1:high:0" = true ∧
    EmailSender.send_immediate_alert
      { cfg := { max_retries := 3, alert_dedup_window_hours := 24 },
        provider := fun _ => { success := true, provider_message_id := some "m" },
        render_immediate_alert := fun _ _ _ => ("", ""),
        get_user_email := fun _ => "u@x.com" }
      { prefs := [{ user_id := 1, frequency := "instant", risk_threshold := some 50,
                    is_paused := false, email := none }],
        areas := [],
        ledger := [{ user_id := 1, area_id := some 1,
                     event_signature := "1:high:0", alert_type := "immediate",
                     risk_score := some 75, provider_message_id := none,
                     error_message := some "SMTP error", retry_count := 3,
                     delivered_at := none, created_at := 10 }] }
      12 1 1 "Valley" 75 none none 70 =
      .ok (duplicateResult,
           { prefs := [{ user_id := 1, frequency := "instant",
                         risk_threshold := some 50, is_paused := false,
                         email := none }],
             areas := [],
             ledger := [{ user_id := 1, area_id := some 1,
                          event_signature := "1:high:0",
                          alert_type := "immediate", risk_score := some 75,
                          provider_message_id := none,
                          error_message := some "SMTP error", retry_count := 3,
                          delivered_at := none, created_at := 10 }] }) ∧
    ({ user_id := 1, area_id := some 1, event_signature := "1:high:0",
       alert_type := "immediate", risk_score := some 75,
       provider_message_id := none, error_message := some "SMTP error",
       retry_count := 3, delivered_at := none,
       created_at := 10 } : AlertActivity) ∈
      DeliveryTracker.get_failed_alerts 4
        [{ user_id := 1, area_id := some 1, event_signature := "1:high:0",
           alert_type := "immediate", risk_score := some 75,
           provider_message_id := none, error_message := some "SMTP error",
           retry_count := 3, delivered_at := none, created_at := 10 }] := by
  have h := record_failure_blocks_resend [] 10 1 "1:high:0" "SMTP error" 3
    (some 1) "immediate" (some 75) _ _ rfl
  refine ⟨h.1 24 12 (by decide), ?_, h.2.2 4 (by decide)⟩
  exact h.2.1
    { cfg := { max_retries := 3, alert_dedup_window_hours := 24 },
      provider := fun _ => { success := true, provider_message_id := some "m" },
      render_immediate_alert := fun _ _ _ => ("", ""),
      get_user_email := fun _ => "u@x.com" }
    { prefs := [{ user_id := 1, frequency := "instant", risk_threshold := some 50,
                  is_paused := false, email := none }],
      areas := [],
      ledger := [{ user_id := 1, area_id := some 1,
                   event_signature := "1:high:0", alert_type := "immediate",
                   risk_score := some 75, provider_message_id := none,
                   error_message := some "SMTP error", retry_count := 3,
                   delivered_at := none, created_at := 10 }] }
    12 1 "Valley" 75 none none 70
    { user_id := 1, frequency := "instant", risk_threshold := some 50,
      is_paused := false, email := none }
    rfl (by decide) rfl rfl (Or.inl rfl) (by decide)
